import Mathlib

/-!
Verification development for the substrate-playground control plane
(src/backend/src: manager.rs, kubernetes.rs, kubernetes/session.rs, types.rs).

Conventions of the embedding:
* Rust `std::time::Duration` is modelled as a `Nat` of seconds; every duration in
  this codebase is produced from whole minutes (`str_minutes_to_duration`,
  the `option_duration` wire deserializer), so second granularity is exact.
* Kubernetes I/O is modelled as explicit state passing over `ClusterState`
  together with a trace of the mutating API calls (`KubeOp`); fallible paths
  return `Except Error _`.
* `list_sessions` (kubernetes/session.rs) derives one `Session` per namespace
  labelled `NAMESPACE_TYPE=NAMESPACE_SESSION`; `ClusterState.sessions` is that
  derived view, so creating the namespace+pod appends a session and deleting
  the namespace removes it.
-/

namespace Playground

/-- Resource permissions, as used by manager.rs (`ResourcePermission`). The
definition itself lives in the manager-era types module that is not under
src/; the constructors are exactly those constructed in manager.rs. -/
inductive ResourcePermission where
  | Read
  | Create
  | Update
  | Delete
  | Custom (name : String)
deriving DecidableEq

/-- Resource types, as used by manager.rs (`ResourceType`). -/
inductive ResourceType where
  | User
  | Role
  | Repository
  | RepositoryVersion
  | Pool
  | Session
  | SessionExecution
deriving DecidableEq

/-- The error taxonomy. `error.rs` is not under src/; the constructors are the
ones constructed or matched in src (manager.rs, kubernetes/session.rs, api.rs).
`SessionIdAlreayUsed` keeps the source's spelling (manager.rs line 444).
kubernetes/session.rs line 478 constructs the concurrency error under the
stale name `ConcurrentWorkspacesLimitBreached`; api.rs line 112 matches it as
`ConcurrentSessionsLimitBreached` — one constructor models both. -/
inductive Error where
  | Unauthorized (resource : ResourceType) (permission : ResourcePermission)
  | UnknownResource (resource : ResourceType) (id : String)
  | ResourceNotOwned (resource : ResourceType) (id : String)
  | SessionIdAlreayUsed
  | ConcurrentSessionsLimitBreached (count : Nat)
  | DurationLimitBreached (ms : Nat)
  | RepositoryVersionNotReady
  | MissingData (what : String)
  | MissingEnvironmentVariable (name : String)
  | Failure (cause : String)
deriving DecidableEq

/-- types.rs `Node`. -/
structure Node where
  hostname : String
deriving DecidableEq

/-- types.rs `Pool`. -/
structure Pool where
  id : String
  instanceType : Option String
  nodes : List Node
deriving DecidableEq

/-- types.rs `NameValuePair`. -/
structure NameValuePair where
  name : String
  value : String
deriving DecidableEq

/-- types.rs `Port`. -/
structure Port where
  name : String
  protocol : Option String
  path : String
  port : Int
  target : Option Int
deriving DecidableEq

/-- types.rs `RepositoryRuntimeConfiguration`. -/
structure RepositoryRuntimeConfiguration where
  baseImage : Option String
  env : Option (List NameValuePair)
  ports : Option (List Port)
deriving DecidableEq

/-- types.rs `Template` (the `tags` metadata map is omitted: nothing in the
modelled operations reads it). -/
structure Template where
  name : String
  image : String
  description : String
  runtime : Option RepositoryRuntimeConfiguration
deriving DecidableEq

/-- types.rs `WorkspaceDefaults` (the process-wide session defaults resolved
from environment variables; durations in seconds, from whole minutes). -/
structure WorkspaceDefaults where
  baseImage : String
  duration : Nat
  maxDuration : Nat
  poolAffinity : String
  maxWorkspacesPerPod : Nat
deriving DecidableEq

/-- types.rs `Configuration`. -/
structure Configuration where
  githubClientId : String
  workspace : WorkspaceDefaults
deriving DecidableEq

/-- Modelled from the spec: the manager-era `SessionState` referenced by
manager.rs is not under src/; spec section 3 gives
`state ∈ {Deploying, Running{start_time, node, runtime}, Paused, Failed{reason, message}}`,
mirroring types.rs `WorkspaceState` (lines 60-75). `startTime` is seconds
since epoch. -/
inductive SessionState where
  | Deploying
  | Running (startTime : Nat) (node : Node) (runtime : RepositoryRuntimeConfiguration)
  | Paused
  | Failed (message : String) (reason : String)
deriving DecidableEq

/-- A session as derived by kubernetes/session.rs `pod_to_session`: `id` and
`user_id` both come from the pod's owner label, the duration comes from the
pod's `session_duration` annotation (an integer number of minutes), and the
state is derived from the pod (spec section 4.5). `podUid` models pod
identity, so that pod recreation is observable. -/
structure Session where
  id : String
  userId : String
  durationAnnotMinutes : Nat
  state : SessionState
  podUid : Nat
deriving DecidableEq

/-- kubernetes/session.rs `str_to_session_duration_minutes`: annotation minutes
to a duration in seconds. -/
def str_minutes_to_duration (minutes : Nat) : Nat := minutes * 60

/-- The session's `max_duration` as manager.rs sees it: read from the pod
annotation via `str_to_session_duration_minutes` (spec: "The max_duration is
read from the pod annotation"). -/
def Session.maxDuration (s : Session) : Nat := str_minutes_to_duration s.durationAnnotMinutes

/-- kubernetes/session.rs `workspace_duration_annotation`: a duration in
seconds rendered as annotation minutes (`duration.as_secs() / 60`). -/
def workspace_duration_annot (durationSecs : Nat) : Nat := durationSecs / 60

/-- The caller. Merges types.rs `LoggedUser` with the manager-era `User`
(role-bearing; its types module is not under src/). `hasPermission` abstracts
`User::has_permission` — the role-resolution whose body is not under src/
(spec section 4.3): it answers whether the caller's role carries the
`(ResourceType, ResourcePermission)` tuple. `role`/`preferences` are the
stored fields of kubernetes/user.rs `User`. -/
structure User where
  id : String
  role : String
  preferences : List (String × String)
  poolAffinity : Option String
  hasPermission : ResourceType → ResourcePermission → Bool

/-- types.rs `SessionConfiguration` (durations in seconds, produced from wire
minutes by `option_duration`). -/
structure SessionConfiguration where
  template : String
  duration : Option Nat
  poolAffinity : Option String
deriving DecidableEq

/-- types.rs `SessionUpdateConfiguration`: the single updatable field. -/
structure SessionUpdateConfiguration where
  duration : Option Nat
deriving DecidableEq

/-- types.rs `option_duration::deserialize`: wire durations are integer
minutes, stored as seconds (`Duration::from_secs(m * 60)`). -/
def option_duration_from_wire (minutes : Option Nat) : Option Nat :=
  minutes.map (fun m => m * 60)

/-- k8s `HTTPIngressPath` as built by `ingress_path(path, service_name, port)`
(kubernetes_utils, re-exported to kubernetes/session.rs). -/
structure HTTPIngressPath where
  path : String
  serviceName : String
  port : Int
deriving DecidableEq

/-- One rule of the singleton Ingress: identified by `host`. -/
structure IngressRule where
  host : Option String
  paths : List HTTPIngressPath
deriving DecidableEq

def THEIA_WEB_PORT : Int := 3000

def ingress_path (path : String) (serviceName : String) (port : Int) : HTTPIngressPath :=
  { path := path, serviceName := serviceName, port := port }

/-- kubernetes/session.rs `ingress_paths`: the mandatory theia path `/` on
port 3000 followed by one path per declared runtime port. -/
def ingress_paths (serviceName : String) (ports : List Port) : List HTTPIngressPath :=
  [ingress_path "/" serviceName THEIA_WEB_PORT]
    ++ ports.map (fun port => ingress_path port.path serviceName port.port)

/-- kubernetes/session.rs `subdomain`. -/
def subdomain (host : String) (id : String) : String := id ++ "." ++ host

/-- kubernetes/session.rs `session_namespace`. -/
def session_namespace (sessionId : String) : String := "session-" ++ sessionId

/-- kubernetes/session.rs `local_service_name`. -/
def local_service_name (sessionId : String) : String := "service-" ++ sessionId

/-- The cluster as the orchestrator observes it: the derived session list, the
pools derived from node labels, the template config map, the singleton
Ingress's rule list and the control-namespace services. `nextPodUid` feeds
fresh pod identities. -/
structure ClusterState where
  sessions : List Session
  pools : List Pool
  templates : List Template
  ingressRules : List IngressRule
  controlServices : List String
  nextPodUid : Nat
deriving DecidableEq

/-- kubernetes.rs `get_pool`: look the pool up by its node-label id. -/
def get_pool (st : ClusterState) (id : String) : Option Pool :=
  st.pools.find? (fun p => p.id == id)

/-- kubernetes/session.rs `list_sessions`: one session per namespace labelled
`NAMESPACE_TYPE=NAMESPACE_SESSION`. -/
def list_sessions (st : ClusterState) : List Session := st.sessions

/-- kubernetes.rs `running_or_pending_workspaces` (lines 237-247), transposed
to the session state machine: keep exactly the Running and Deploying entries. -/
def running_or_pending_sessions (sessions : List Session) : List Session :=
  sessions.filter (fun s =>
    match s.state with
    | SessionState.Running _ _ _ => true
    | SessionState.Deploying => true
    | _ => false)

/-- A mutating Kubernetes API call, for traces. -/
inductive KubeOp where
  | replaceIngress (rules : List IngressRule)
  | createNamespace (name : String)
  | createPod (ns : String) (name : String)
  | createService (ns : String) (name : String)
  | deleteNamespace (name : String) (gracePeriodSeconds : Nat)
  | deleteService (ns : String) (name : String)
  | patchPodDurationAnnot (ns : String) (podName : String) (minutes : Nat)
deriving DecidableEq

/-- kubernetes/session.rs `patch_ingress` (lines 412-445), rule part: read the
current rules and PUSH one rule per entry of `runtimes` — nothing is removed,
a rule for an already-present host is appended alongside it. -/
def patch_ingress_rules (host : String) (runtimes : List (String × List Port))
    (rules : List IngressRule) : List IngressRule :=
  rules ++ runtimes.map (fun r =>
    { host := some (subdomain host r.1)
      paths := ingress_paths (local_service_name r.1) r.2 })

/-- kubernetes/session.rs `delete_session` (lines 627-633), rule part: keep
exactly the rules whose host (defaulted to "unknown") differs from the
session's subdomain. -/
def delete_ingress_rules (sub : String) (rules : List IngressRule) : List IngressRule :=
  rules.filter (fun rule => rule.host.getD "unknown" != sub)

/-- The pool id resolution of kubernetes/session.rs `create_session` (lines
462-469): `config.pool_affinity ?? user.pool_affinity ?? configuration default`. -/
def resolved_pool_id (user : User) (configuration : Configuration)
    (conf : SessionConfiguration) : String :=
  conf.poolAffinity.getD (user.poolAffinity.getD configuration.workspace.poolAffinity)

/-- kubernetes/session.rs `create_session` (lines 451-554). Faithful order:
resolve pool; capacity check against `list_sessions().len()` (all sessions,
no state filter); template lookup; `patch_ingress` for the new subdomain;
duration `config.duration ?? default` (no comparison with max_duration);
create namespace, pod (with the minute annotation), in-namespace service and
control-namespace ExternalName service. The source `.unwrap()`s the template
runtime; a missing runtime is modelled as the panic surfacing as a Failure. -/
def kube_create_session (host : String) (user : User) (sessionId : String)
    (configuration : Configuration) (conf : SessionConfiguration)
    (st : ClusterState) : Except Error ClusterState × List KubeOp :=
  let poolId := resolved_pool_id user configuration conf
  match get_pool st poolId with
  | none => (Except.error (Error.MissingData "no matching pool"), [])
  | some pool =>
    let maxSessionsAllowed := pool.nodes.length * configuration.workspace.maxWorkspacesPerPod
    let sessions := list_sessions st
    if maxSessionsAllowed ≤ sessions.length then
      (Except.error (Error.ConcurrentSessionsLimitBreached sessions.length), [])
    else
      match st.templates.find? (fun t => t.name == conf.template) with
      | none => (Except.error (Error.MissingData "no matching template"), [])
      | some template =>
        match template.runtime with
        | none => (Except.error (Error.Failure "panicked: unwrap of template.runtime"), [])
        | some runtime =>
          let newRules :=
            patch_ingress_rules host [(sessionId, runtime.ports.getD [])] st.ingressRules
          let st1 := { st with ingressRules := newRules }
          let duration := conf.duration.getD configuration.workspace.duration
          if st1.sessions.any (fun s => s.id == sessionId) then
            (Except.error (Error.Failure "AlreadyExists"), [KubeOp.replaceIngress newRules])
          else
            let ns := session_namespace sessionId
            let newSession : Session :=
              { id := sessionId
                userId := sessionId
                durationAnnotMinutes := workspace_duration_annot duration
                state := SessionState.Deploying
                podUid := st1.nextPodUid }
            (Except.ok { st1 with
                sessions := st1.sessions ++ [newSession]
                controlServices := st1.controlServices ++ [local_service_name sessionId]
                nextPodUid := st1.nextPodUid + 1 },
             [KubeOp.replaceIngress newRules,
              KubeOp.createNamespace ns,
              KubeOp.createPod ns "session",
              KubeOp.createService ns "service",
              KubeOp.createService "default" (local_service_name sessionId)])

/-- kubernetes/session.rs `update_session` (lines 556-593): look the session
up; `duration := config.duration ?? default`; fail `DurationLimitBreached(max
in ms)` when `duration ≥ max_duration`; when the duration actually changes,
JSON-patch the pod's `session_duration` annotation to the new minute value —
the pod itself (its uid) is untouched. -/
def kube_update_session (sessionId : String) (configuration : Configuration)
    (conf : SessionUpdateConfiguration) (st : ClusterState) :
    Except Error ClusterState × List KubeOp :=
  match st.sessions.find? (fun s => s.id == sessionId) with
  | none => (Except.error (Error.MissingData "no matching session"), [])
  | some session =>
    let duration := conf.duration.getD configuration.workspace.duration
    let maxDuration := configuration.workspace.maxDuration
    if maxDuration ≤ duration then
      (Except.error (Error.DurationLimitBreached (maxDuration * 1000)), [])
    else if duration != str_minutes_to_duration session.durationAnnotMinutes then
      (Except.ok { st with
          sessions := st.sessions.map (fun s =>
            if s.id == sessionId then
              { s with durationAnnotMinutes := workspace_duration_annot duration }
            else s) },
       [KubeOp.patchPodDurationAnnot (session_namespace sessionId) "session"
          (workspace_duration_annot duration)])
    else
      (Except.ok st, [])

/-- kubernetes/session.rs `delete_session` (lines 595-643): delete the session
namespace with grace period 0, then the control-namespace ExternalName
service, then filter the matching rule out of the Ingress. kube's `delete`
returns Err on a missing object and each step maps that into
`Error::Failure` and propagates it with `?` — NotFound is NOT swallowed. -/
def kube_delete_session (host : String) (sessionId : String) (st : ClusterState) :
    Except Error ClusterState × List KubeOp :=
  if st.sessions.any (fun s => s.id == sessionId) then
    let st1 := { st with sessions := st.sessions.filter (fun s => s.id != sessionId) }
    let svc := local_service_name sessionId
    if st1.controlServices.contains svc then
      let st2 := { st1 with controlServices := st1.controlServices.filter (fun n => n != svc) }
      let newRules := delete_ingress_rules (subdomain host sessionId) st2.ingressRules
      (Except.ok { st2 with ingressRules := newRules },
       [KubeOp.deleteNamespace (session_namespace sessionId) 0,
        KubeOp.deleteService "default" svc,
        KubeOp.replaceIngress newRules])
    else
      (Except.error (Error.Failure "NotFound"),
       [KubeOp.deleteNamespace (session_namespace sessionId) 0])
  else
    (Except.error (Error.Failure "NotFound"), [])

/-- kubernetes/session.rs `get_session` (lines 365-375) in terms of the
derived session view; transport failures on the pod get are swallowed by
`.ok()` (absent), a present-but-malformed pod surfaces an error, abstracted
by callers taking the result as a parameter. -/
def kube_get_session (st : ClusterState) (sessionId : String) :
    Except Error (Option Session) :=
  Except.ok (st.sessions.find? (fun s => s.id == sessionId))

/-- manager.rs `ensure_permission` (lines 111-124). -/
def ensure_permission (caller : User) (resourceType : ResourceType)
    (resourcePermission : ResourcePermission) : Except Error Unit :=
  if caller.hasPermission resourceType resourcePermission then Except.ok ()
  else Except.error (Error.Unauthorized resourceType resourcePermission)

/-- manager.rs `Manager::ensure_session_ownership` (lines 366-381), with the
underlying `get_session` call's outcome as a parameter: errors propagate via
`?`; a session owned by someone else is `ResourceNotOwned`; an absent one is
`UnknownResource`. -/
def ensure_session_ownership (user : User) (sessionId : String)
    (kubeRes : Except Error (Option Session)) : Except Error Session :=
  match kubeRes with
  | Except.error e => Except.error e
  | Except.ok (some session) =>
    if user.id ≠ session.userId then
      Except.error (Error.ResourceNotOwned ResourceType.Session sessionId)
    else
      Except.ok session
  | Except.ok none => Except.error (Error.UnknownResource ResourceType.Session sessionId)

/-- manager.rs `Manager::get_session` (lines 383-391), with the underlying
kubernetes get abstracted: require `(Session, Read)`, then map the ownership
outcome — `Failure` propagates, every other error becomes `Ok(None)`. -/
def manager_get_session_from (user : User) (sessionId : String)
    (kubeRes : Except Error (Option Session)) : Except Error (Option Session) :=
  match ensure_permission user ResourceType.Session ResourcePermission.Read with
  | Except.error e => Except.error e
  | Except.ok _ =>
    match ensure_session_ownership user sessionId kubeRes with
    | Except.error (Error.Failure cause) => Except.error (Error.Failure cause)
    | Except.error _ => Except.ok none
    | Except.ok session => Except.ok (some session)

/-- manager.rs `Manager::get_session` composed with the kubernetes lookup. -/
def manager_get_session (user : User) (sessionId : String) (st : ClusterState) :
    Except Error (Option Session) :=
  manager_get_session_from user sessionId (kube_get_session st sessionId)

/-- Rust `str::to_ascii_lowercase`: ASCII-only lowering (Lean's `Char.toLower`
also lowers only A-Z), written on the character list so it evaluates by
kernel reduction. -/
def asciiLowercase (s : String) : String := String.mk (s.data.map Char.toLower)

/-- The permission prelude of manager.rs `Manager::create_session` (lines
405-440): `(Session, Create)` always; `Custom("CustomizeSessionName")` when
the session id differs from the lowercased caller id;
`Custom("CustomizeSessionDuration")` when a duration is given;
`Custom("CustomizeSessionPoolAffinity")` when a pool affinity is given. -/
def manager_create_checks (caller : User) (id : String) (conf : SessionConfiguration) :
    Except Error Unit :=
  match ensure_permission caller ResourceType.Session ResourcePermission.Create with
  | Except.error e => Except.error e
  | Except.ok _ =>
    match (if asciiLowercase caller.id ≠ id then
        ensure_permission caller ResourceType.Session
          (ResourcePermission.Custom "CustomizeSessionName")
      else Except.ok ()) with
    | Except.error e => Except.error e
    | Except.ok _ =>
      match (if conf.duration.isSome then
          ensure_permission caller ResourceType.Session
            (ResourcePermission.Custom "CustomizeSessionDuration")
        else Except.ok ()) with
      | Except.error e => Except.error e
      | Except.ok _ =>
        if conf.poolAffinity.isSome then
          ensure_permission caller ResourceType.Session
            (ResourcePermission.Custom "CustomizeSessionPoolAffinity")
        else Except.ok ()

/-- manager.rs `Manager::create_session` (lines 399-466): the permission
prelude, then the idempotence guard `self.get_session(caller, id)` (itself
requiring `(Session, Read)`) — `Some` fails `SessionIdAlreayUsed` — then the
kubernetes `create_session`. The trace is empty until the kubernetes call. -/
def manager_create_session (host : String) (caller : User) (id : String)
    (configuration : Configuration) (conf : SessionConfiguration)
    (st : ClusterState) : Except Error ClusterState × List KubeOp :=
  match manager_create_checks caller id conf with
  | Except.error e => (Except.error e, [])
  | Except.ok _ =>
    match manager_get_session caller id st with
    | Except.error e => (Except.error e, [])
    | Except.ok (some _) => (Except.error Error.SessionIdAlreayUsed, [])
    | Except.ok none => kube_create_session host caller id configuration conf st

/-- kubernetes/user.rs `get_user` over the user store (the annotated
namespaces), as a pure lookup. -/
def kube_get_user (store : List User) (id : String) : Option User :=
  store.find? (fun u => u.id == id)

/-- types.rs-era `UserUpdateConfiguration` as kubernetes/user.rs `update_user`
consumes it: the updatable fields are `role` and `preferences`. -/
structure UserUpdateConfiguration where
  role : String
  preferences : List (String × String)

/-- kubernetes/user.rs `update_user` (lines 124-147): look the user up
(missing ⇒ `UnknownResource(User, id)`), then write the changed `role` and
`preferences` annotations. -/
def kube_update_user (store : List User) (id : String)
    (conf : UserUpdateConfiguration) : Except Error (List User) :=
  match kube_get_user store id with
  | none => Except.error (Error.UnknownResource ResourceType.User id)
  | some _ =>
    Except.ok (store.map (fun u =>
      if u.id == id then { u with role := conf.role, preferences := conf.preferences }
      else u))

/-- kubernetes/user.rs `delete_user` (lines 149-158): delete the user
namespace; a missing one is a kube Err mapped to a failure. -/
def kube_delete_user (store : List User) (id : String) : Except Error (List User) :=
  if store.any (fun u => u.id == id) then
    Except.ok (store.filter (fun u => u.id != id))
  else
    Except.error (Error.Failure "NotFound")

/-- manager.rs `Manager::get_user` (lines 143-150): the role is consulted only
when the caller asks about someone else. -/
def manager_get_user (caller : User) (id : String) (store : List User) :
    Except Error (Option User) :=
  match (if caller.id ≠ id then
      ensure_permission caller ResourceType.User ResourcePermission.Read
    else Except.ok ()) with
  | Except.error e => Except.error e
  | Except.ok _ => Except.ok (kube_get_user store id)

/-- manager.rs `Manager::update_user` (lines 169-181). -/
def manager_update_user (caller : User) (id : String) (conf : UserUpdateConfiguration)
    (store : List User) : Except Error (List User) :=
  match (if caller.id ≠ id then
      ensure_permission caller ResourceType.User ResourcePermission.Update
    else Except.ok ()) with
  | Except.error e => Except.error e
  | Except.ok _ => kube_update_user store id conf

/-- manager.rs `Manager::delete_user` (lines 183-190). -/
def manager_delete_user (caller : User) (id : String) (store : List User) :
    Except Error (List User) :=
  match (if caller.id ≠ id then
      ensure_permission caller ResourceType.User ResourcePermission.Delete
    else Except.ok ()) with
  | Except.error e => Except.error e
  | Except.ok _ => kube_delete_user store id

/-- The expiry test of manager.rs `spawn_session_reaper_thread` (lines 83-85):
a Running session whose `start_time.elapsed()` is `Ok` (start not in the
future) and strictly exceeds `max_duration`. -/
def reaper_expired (now : Nat) (s : Session) : Bool :=
  match s.state with
  | SessionState.Running startTime _ _ =>
    decide (startTime ≤ now) && decide (s.maxDuration < now - startTime)
  | _ => false

/-- One reaper tick over the listed sessions (manager.rs lines 81-103):
every expired Running session gets `delete_session(user_id, id)`; `deleteOk`
is the outcome of that call; a failure is only logged (the session survives,
the sweep continues). Returns `(attempted deletions as (user_id, id),
failed deletions, surviving sessions)`. -/
def reaper_sweep (now : Nat) (deleteOk : String → String → Bool) :
    List Session → List (String × String) × List (String × String) × List Session
  | [] => ([], [], [])
  | s :: rest =>
    let r := reaper_sweep now deleteOk rest
    if reaper_expired now s then
      if deleteOk s.userId s.id then
        ((s.userId, s.id) :: r.1, r.2.1, r.2.2)
      else
        ((s.userId, s.id) :: r.1, (s.userId, s.id) :: r.2.1, s :: r.2.2)
    else
      (r.1, r.2.1, s :: r.2.2)

/-- `Except.isOk` as an explicit discriminator. -/
def except_is_ok {ε α : Type} : Except ε α → Bool
  | Except.ok _ => true
  | Except.error _ => false

/-- The recorded `max_duration`s of the sessions of a create outcome. -/
def created_max_durations : Except Error ClusterState → List Nat
  | Except.ok st => st.sessions.map Session.maxDuration
  | Except.error _ => []

/- Concrete fixtures used by counterexamples and witnesses. -/

def permitAll : ResourceType → ResourcePermission → Bool := fun _ _ => true

def denyAll : ResourceType → ResourcePermission → Bool := fun _ _ => false

def nodeOne : Node := { hostname := "node-1" }

def poolDefault : Pool := { id := "default", instanceType := none, nodes := [nodeOne] }

def runtimeEmpty : RepositoryRuntimeConfiguration := { baseImage := none, env := none, ports := none }

def templateWorkshop : Template :=
  { name := "workshop", image := "img", description := "", runtime := some runtimeEmpty }

/-- Defaults of 180 min, max 1440 min, one session per node. -/
def configurationStd : Configuration :=
  { githubClientId := ""
    workspace :=
      { baseImage := "base", duration := 180 * 60, maxDuration := 1440 * 60
        poolAffinity := "default", maxWorkspacesPerPod := 1 } }

def userAlice : User :=
  { id := "alice", role := "user-role", preferences := [], poolAffinity := none
    hasPermission := permitAll }

def userBobCreateOnly : User :=
  { id := "bob", role := "user-role", preferences := [], poolAffinity := none
    hasPermission := fun rt rp => rt == ResourceType.Session && rp == ResourcePermission.Create }

def userEveNoperm : User :=
  { id := "eve", role := "user-role", preferences := [], poolAffinity := none
    hasPermission := denyAll }

def sessionPaused : Session :=
  { id := "old", userId := "old", durationAnnotMinutes := 45
    state := SessionState.Paused, podUid := 0 }

def sessionAliceRunning : Session :=
  { id := "alice", userId := "alice", durationAnnotMinutes := 45
    state := SessionState.Running 100 nodeOne runtimeEmpty, podUid := 7 }

def sessionBobRunning : Session :=
  { id := "bob", userId := "bob", durationAnnotMinutes := 45
    state := SessionState.Running 100 nodeOne runtimeEmpty, podUid := 3 }

def ruleAliceExample : IngressRule :=
  { host := some "alice.example.com", paths := [ingress_path "/" "service-alice" 3000] }

def stEmpty : ClusterState :=
  { sessions := [], pools := [poolDefault], templates := [templateWorkshop]
    ingressRules := [], controlServices := [], nextPodUid := 0 }

def stOnePaused : ClusterState :=
  { sessions := [sessionPaused], pools := [poolDefault], templates := [templateWorkshop]
    ingressRules := [], controlServices := [], nextPodUid := 1 }

def stWithAlice : ClusterState :=
  { sessions := [sessionAliceRunning], pools := [poolDefault], templates := [templateWorkshop]
    ingressRules := [ruleAliceExample], controlServices := [local_service_name "alice"]
    nextPodUid := 8 }

def confPlain : SessionConfiguration :=
  { template := "workshop", duration := none, poolAffinity := none }

/-- An explicit duration of 1441 minutes, one over the 1440-minute maximum. -/
def confLongDuration : SessionConfiguration :=
  { template := "workshop", duration := some (1441 * 60), poolAffinity := none }

def updConfAdmin : UserUpdateConfiguration := { role := "admin-role", preferences := [] }

/-- The state reached by creating a session for `confLongDuration` on `stEmpty`. -/
def afterC2 : ClusterState :=
  match (kube_create_session "example.com" userAlice "alice" configurationStd
      confLongDuration stEmpty).1 with
  | Except.ok st => st
  | Except.error _ => stEmpty

/-- The state reached by the first delete of alice's session on `stWithAlice`. -/
def stAfterDelete : ClusterState :=
  match (kube_delete_session "example.com" "alice" stWithAlice).1 with
  | Except.ok st => st
  | Except.error _ => stWithAlice

/-! ## C3: ingress rule identity -/

/-- C3 counterexample: the singleton Ingress already holds a rule for host
`alice.example.com`; `patch_ingress` for session `alice` appends a second
rule for the very same host instead of replacing the first, so the rule
list does not contain at most one rule per host. -/
theorem C3_counterexample :
    (patch_ingress_rules "example.com" [("alice", [])] [ruleAliceExample]).countP
        (fun r => r.host == some "alice.example.com") = 2
      ∧ (patch_ingress_rules "example.com" [("alice", [])] [ruleAliceExample]).length = 2 := by
  constructor <;> rfl

/-- C3 (amended): adding a rule APPENDS it — every pre-existing rule (a rule
for the same host included) is preserved and the new rule is present — while
deleting a session's rule removes exactly the rules whose host equals the
session's subdomain and keeps every other rule. -/
theorem C3_ingress_rule_identity (host : String) (runtimes : List (String × List Port))
    (rules : List IngressRule) (sub : String) :
    (∀ rule ∈ rules, rule ∈ patch_ingress_rules host runtimes rules)
      ∧ (∀ pr ∈ runtimes,
          ({ host := some (subdomain host pr.1)
             paths := ingress_paths (local_service_name pr.1) pr.2 } : IngressRule)
            ∈ patch_ingress_rules host runtimes rules)
      ∧ (∀ rule : IngressRule,
          rule ∈ delete_ingress_rules sub rules
            ↔ rule ∈ rules ∧ rule.host.getD "unknown" ≠ sub) := by
  refine ⟨?_, ?_, ?_⟩
  · intro rule hr
    exact List.mem_append_left _ hr
  · intro pr hpr
    refine List.mem_append_right _ ?_
    exact List.mem_map.mpr ⟨pr, hpr, rfl⟩
  · intro rule
    simp [delete_ingress_rules, List.mem_filter, bne_iff_ne]

/-- C3 witness: at a concrete input, the pre-existing rule for
`alice.example.com` survives the patch, and deleting with subdomain
`alice.example.com` removes it. -/
theorem C3_witness :
    ruleAliceExample ∈ patch_ingress_rules "example.com" [("alice", [])] [ruleAliceExample]
      ∧ ¬ ruleAliceExample ∈ delete_ingress_rules "alice.example.com" [ruleAliceExample] := by
  refine ⟨(C3_ingress_rule_identity "example.com" [("alice", [])] [ruleAliceExample]
    "alice.example.com").1 ruleAliceExample (by simp), ?_⟩
  intro h
  have h2 := ((C3_ingress_rule_identity "example.com" [("alice", [])] [ruleAliceExample]
    "alice.example.com").2.2 ruleAliceExample).mp h
  exact h2.2 (by decide)

/-! ## C9: user self-service carve-outs -/

/-- C9: get/update/delete targeted at the caller's own id bypass the role
(the result is the underlying store operation, whatever `hasPermission`
answers), while the same operations targeted at another id require the
corresponding `(User, _)` permission and fail `Unauthorized` without it. -/
theorem C9_user_self_service (caller : User) (id : String) (store : List User)
    (conf : UserUpdateConfiguration) :
    (caller.id = id →
      manager_get_user caller id store = Except.ok (kube_get_user store id)
        ∧ manager_update_user caller id conf store = kube_update_user store id conf
        ∧ manager_delete_user caller id store = kube_delete_user store id)
      ∧ (caller.id ≠ id →
          (caller.hasPermission ResourceType.User ResourcePermission.Read = false →
            manager_get_user caller id store
              = Except.error (Error.Unauthorized ResourceType.User ResourcePermission.Read))
          ∧ (caller.hasPermission ResourceType.User ResourcePermission.Update = false →
              manager_update_user caller id conf store
                = Except.error (Error.Unauthorized ResourceType.User ResourcePermission.Update))
          ∧ (caller.hasPermission ResourceType.User ResourcePermission.Delete = false →
              manager_delete_user caller id store
                = Except.error (Error.Unauthorized ResourceType.User ResourcePermission.Delete))) := by
  constructor
  · intro heq
    refine ⟨?_, ?_, ?_⟩ <;>
      simp [manager_get_user, manager_update_user, manager_delete_user, heq]
  · intro hne
    refine ⟨?_, ?_, ?_⟩ <;> intro hperm <;>
      simp [manager_get_user, manager_update_user, manager_delete_user, hne,
        ensure_permission, hperm]

/-- C9 witness: alice reads herself with no role consultation needed; eve,
whose role grants nothing, is refused reading alice. -/
theorem C9_witness :
    manager_get_user userAlice "alice" [userAlice] = Except.ok (kube_get_user [userAlice] "alice")
      ∧ manager_get_user userEveNoperm "alice" [userAlice]
          = Except.error (Error.Unauthorized ResourceType.User ResourcePermission.Read) :=
  ⟨((C9_user_self_service userAlice "alice" [userAlice] updConfAdmin).1 rfl).1,
   ((C9_user_self_service userEveNoperm "alice" [userAlice] updConfAdmin).2 (by decide)).1 rfl⟩

/-! ## C10: non-owners cannot distinguish foreign sessions from absent ones -/

/-- C10: for a caller holding `(Session, Read)`, `get_session` answers
`Ok(None)` when the session is absent and equally when it exists but belongs
to someone else (`UnknownResource` and `ResourceNotOwned` both map to
`None`), making the two observations identical; a `Failure` from the
underlying lookup is the only error that propagates. -/
theorem C10_get_session_hides_ownership (user : User) (sessionId : String)
    (s : Session) (cause : String)
    (hread : user.hasPermission ResourceType.Session ResourcePermission.Read = true) :
    manager_get_session_from user sessionId (Except.ok none) = Except.ok none
      ∧ (user.id ≠ s.userId →
          manager_get_session_from user sessionId (Except.ok (some s)) = Except.ok none)
      ∧ (user.id ≠ s.userId →
          manager_get_session_from user sessionId (Except.ok (some s))
            = manager_get_session_from user sessionId (Except.ok none))
      ∧ manager_get_session_from user sessionId (Except.error (Error.Failure cause))
          = Except.error (Error.Failure cause) := by
  refine ⟨?_, ?_, ?_, ?_⟩ <;>
    simp [manager_get_session_from, ensure_permission, ensure_session_ownership, hread]
  · intro hne
    simp [hne]
  · intro hne
    simp [hne]

/-- C10 witness: alice, with full read rights, sees `None` for bob's session
exactly as for a missing one. -/
theorem C10_witness :
    manager_get_session_from userAlice "bob" (Except.ok (some sessionBobRunning))
        = Except.ok none
      ∧ manager_get_session_from userAlice "bob" (Except.ok none) = Except.ok none :=
  ⟨(C10_get_session_hides_ownership userAlice "bob" sessionBobRunning "x" rfl).2.1 (by decide),
   (C10_get_session_hides_ownership userAlice "bob" sessionBobRunning "x" rfl).1⟩

/-! ## C6: create's permission ladder -/

/-- C6: `create_session` demands `(Session, Create)` first; then, in order,
`Custom("CustomizeSessionName")` when the id differs from the lowercased
caller id, `Custom("CustomizeSessionDuration")` when a duration is supplied
and `Custom("CustomizeSessionPoolAffinity")` when a pool affinity is
supplied; the first missing permission fails the call `Unauthorized` naming
that permission, with an empty Kubernetes trace (no cluster mutation). -/
theorem C6_create_permission_ladder (host : String) (caller : User) (id : String)
    (configuration : Configuration) (conf : SessionConfiguration) (st : ClusterState) :
    (caller.hasPermission ResourceType.Session ResourcePermission.Create = false →
      manager_create_session host caller id configuration conf st
        = (Except.error (Error.Unauthorized ResourceType.Session ResourcePermission.Create), []))
      ∧ (caller.hasPermission ResourceType.Session ResourcePermission.Create = true →
          asciiLowercase caller.id ≠ id →
          caller.hasPermission ResourceType.Session
              (ResourcePermission.Custom "CustomizeSessionName") = false →
          manager_create_session host caller id configuration conf st
            = (Except.error (Error.Unauthorized ResourceType.Session
                (ResourcePermission.Custom "CustomizeSessionName")), []))
      ∧ (caller.hasPermission ResourceType.Session ResourcePermission.Create = true →
          asciiLowercase caller.id = id →
          conf.duration.isSome = true →
          caller.hasPermission ResourceType.Session
              (ResourcePermission.Custom "CustomizeSessionDuration") = false →
          manager_create_session host caller id configuration conf st
            = (Except.error (Error.Unauthorized ResourceType.Session
                (ResourcePermission.Custom "CustomizeSessionDuration")), []))
      ∧ (caller.hasPermission ResourceType.Session ResourcePermission.Create = true →
          asciiLowercase caller.id = id →
          conf.duration = none →
          conf.poolAffinity.isSome = true →
          caller.hasPermission ResourceType.Session
              (ResourcePermission.Custom "CustomizeSessionPoolAffinity") = false →
          manager_create_session host caller id configuration conf st
            = (Except.error (Error.Unauthorized ResourceType.Session
                (ResourcePermission.Custom "CustomizeSessionPoolAffinity")), [])) := by
  refine ⟨?_, ?_, ?_, ?_⟩
  · intro hc
    simp [manager_create_session, manager_create_checks, ensure_permission, hc]
  · intro hc hne hname
    simp [manager_create_session, manager_create_checks, ensure_permission, hc, hne, hname]
  · intro hc heq hdur hperm
    simp [manager_create_session, manager_create_checks, ensure_permission, hc, heq,
      hdur, hperm]
  · intro hc heq hdur hpool hperm
    simp [manager_create_session, manager_create_checks, ensure_permission, hc, heq,
      hdur, hpool, hperm]

/-- C6 witness: bob, granted only `(Session, Create)`, asking for session id
`alice`, is refused with the `CustomizeSessionName` permission named, before
any Kubernetes call. -/
theorem C6_witness :
    manager_create_session "example.com" userBobCreateOnly "alice" configurationStd
        confPlain stEmpty
      = (Except.error (Error.Unauthorized ResourceType.Session
          (ResourcePermission.Custom "CustomizeSessionName")), []) :=
  (C6_create_permission_ladder "example.com" userBobCreateOnly "alice" configurationStd
    confPlain stEmpty).2.1 rfl (by decide) rfl

/-! ## C7: the idempotence guard -/

/-- C7: once the permission prelude passes, `create_session` consults
`get_session(caller, id)`: a `Some` outcome fails `SessionIdAlreayUsed` with
an empty Kubernetes trace (nothing is materialized); only a `None` outcome
lets the call proceed to the kubernetes `create_session`. -/
theorem C7_idempotence_guard (host : String) (caller : User) (id : String)
    (configuration : Configuration) (conf : SessionConfiguration) (st : ClusterState)
    (hchecks : manager_create_checks caller id conf = Except.ok ()) :
    (∀ s, manager_get_session caller id st = Except.ok (some s) →
        manager_create_session host caller id configuration conf st
          = (Except.error Error.SessionIdAlreayUsed, []))
      ∧ (manager_get_session caller id st = Except.ok none →
          manager_create_session host caller id configuration conf st
            = kube_create_session host caller id configuration conf st) := by
  constructor
  · intro s hget
    simp [manager_create_session, hchecks, hget]
  · intro hget
    simp [manager_create_session, hchecks, hget]

/-- C7 witness: alice, with every permission, re-creating her existing
session, is refused `SessionIdAlreayUsed` with no Kubernetes call. -/
theorem C7_witness :
    manager_create_session "example.com" userAlice "alice" configurationStd confPlain
        stWithAlice
      = (Except.error Error.SessionIdAlreayUsed, []) :=
  (C7_idempotence_guard "example.com" userAlice "alice" configurationStd confPlain
    stWithAlice rfl).1 sessionAliceRunning rfl

/-! ## C5: the reaper sweep -/

theorem reaper_sweep_attempts (now : Nat) (deleteOk : String → String → Bool) :
    ∀ sessions : List Session,
      (reaper_sweep now deleteOk sessions).1
        = (sessions.filter (reaper_expired now)).map (fun s => (s.userId, s.id))
  | [] => rfl
  | s :: rest => by
    have ih := reaper_sweep_attempts now deleteOk rest
    cases hexp : reaper_expired now s <;> cases hok : deleteOk s.userId s.id <;>
      simp [reaper_sweep, hexp, hok, ih]

theorem reaper_sweep_success (now : Nat) (deleteOk : String → String → Bool) :
    ∀ sessions : List Session,
      (reaper_sweep now deleteOk sessions).2.1 = [] →
      (reaper_sweep now deleteOk sessions).2.2
        = sessions.filter (fun s => ! reaper_expired now s)
  | [] => fun _ => rfl
  | s :: rest => by
    intro h
    cases hexp : reaper_expired now s <;> cases hok : deleteOk s.userId s.id <;>
      simp [reaper_sweep, hexp, hok] at h ⊢ <;>
      exact reaper_sweep_success now deleteOk rest h

/-- C5: a reaper tick attempts `delete(user_id, id)` for exactly the Running
sessions whose elapsed time strictly exceeds their `max_duration` (in listing
order); which sessions are attempted does not depend on delete outcomes — a
failed delete is only logged and the sweep continues — and when every delete
succeeds (the pass completes successfully) no expired Running session
survives the tick. -/
theorem C5_reaper (now : Nat) (deleteOk : String → String → Bool)
    (sessions : List Session) :
    (reaper_sweep now deleteOk sessions).1
        = (sessions.filter (reaper_expired now)).map (fun s => (s.userId, s.id))
      ∧ (∀ g : String → String → Bool,
          (reaper_sweep now g sessions).1 = (reaper_sweep now deleteOk sessions).1)
      ∧ ((reaper_sweep now deleteOk sessions).2.1 = [] →
          ∀ s ∈ (reaper_sweep now deleteOk sessions).2.2, reaper_expired now s = false) := by
  refine ⟨reaper_sweep_attempts now deleteOk sessions, ?_, ?_⟩
  · intro g
    rw [reaper_sweep_attempts, reaper_sweep_attempts]
  · intro h s hs
    rw [reaper_sweep_success now deleteOk sessions h] at hs
    have := List.mem_filter.mp hs
    simpa using this.2

/-- C5 witness: with alice's session long expired at `now = 10000` and
deletes succeeding, the sweep attempts exactly her session, reports no
failure, and nothing left is expired. -/
theorem C5_witness :
    (reaper_sweep 10000 (fun _ _ => true) [sessionAliceRunning, sessionPaused]).1
        = [("alice", "alice")]
      ∧ ∀ s ∈ (reaper_sweep 10000 (fun _ _ => true)
          [sessionAliceRunning, sessionPaused]).2.2, reaper_expired 10000 s = false :=
  ⟨by decide,
   (C5_reaper 10000 (fun _ _ => true) [sessionAliceRunning, sessionPaused]).2.2 (by decide)⟩

/-! ## C1: admission counts every session, not only Running/Deploying -/

/-- C1 counterexample: one node, one session allowed per node, and a single
PAUSED session in the cluster — no Running or Deploying session at all — yet
`create_session` fails with the concurrency limit carrying count 1: the
capacity check counts every session returned by `list_sessions`, whatever
its state. -/
theorem C1_counterexample :
    (kube_create_session "example.com" userAlice "alice" configurationStd confPlain
        stOnePaused).1
      = Except.error (Error.ConcurrentSessionsLimitBreached 1)
    ∧ running_or_pending_sessions stOnePaused.sessions = [] := by
  constructor <;> rfl

/-- C1 (amended): the capacity check compares the length of the FULL session
list — sessions in any state are counted — against
`|pool.nodes| × max_sessions_per_node`, failing with the concurrency error
carrying that total on overflow; a successful create still leaves the total
(and a fortiori the Running-or-Deploying subset) within the bound. -/
theorem C1_capacity (host : String) (user : User) (sessionId : String)
    (configuration : Configuration) (conf : SessionConfiguration) (st : ClusterState)
    (pool : Pool)
    (hpool : get_pool st (resolved_pool_id user configuration conf) = some pool) :
    (pool.nodes.length * configuration.workspace.maxWorkspacesPerPod
        ≤ (list_sessions st).length →
      (kube_create_session host user sessionId configuration conf st).1
        = Except.error (Error.ConcurrentSessionsLimitBreached (list_sessions st).length))
    ∧ (∀ st',
        (kube_create_session host user sessionId configuration conf st).1 = Except.ok st' →
        st'.sessions.length
            ≤ pool.nodes.length * configuration.workspace.maxWorkspacesPerPod
          ∧ (running_or_pending_sessions st'.sessions).length
              ≤ pool.nodes.length * configuration.workspace.maxWorkspacesPerPod) := by
  constructor
  · intro hge
    simp only [kube_create_session, hpool]
    rw [if_pos hge]
  · intro st' h
    simp only [kube_create_session, hpool] at h
    split at h
    case isTrue hge => simp at h
    case isFalse hge =>
      split at h
      · simp at h
      · split at h
        · simp at h
        · split at h
          case isTrue hany => simp at h
          case isFalse hany =>
            have h' := Except.ok.inj h
            have hlen : st'.sessions.length = st.sessions.length + 1 := by
              rw [← h']
              simp
            have hlt : st.sessions.length
                < pool.nodes.length * configuration.workspace.maxWorkspacesPerPod := by
              have := Nat.lt_of_not_le hge
              simpa [list_sessions] using this
            have hfil : (running_or_pending_sessions st'.sessions).length
                ≤ st'.sessions.length := List.length_filter_le _ _
            exact ⟨by omega, by omega⟩

/-- C1 witness: the concrete overflowing cluster of the counterexample,
through the general theorem. -/
theorem C1_witness :
    (kube_create_session "example.com" userAlice "newbie" configurationStd confPlain
        stOnePaused).1
      = Except.error (Error.ConcurrentSessionsLimitBreached 1) :=
  (C1_capacity "example.com" userAlice "newbie" configurationStd confPlain stOnePaused
    poolDefault rfl).1 (by decide)

/-! ## C2: create never caps nor rejects a duration -/

theorem ensure_permission_error (caller : User) (rt : ResourceType)
    (rp : ResourcePermission) (e : Error)
    (h : ensure_permission caller rt rp = Except.error e) :
    e = Error.Unauthorized rt rp := by
  unfold ensure_permission at h
  split at h
  · exact absurd h (by simp)
  · exact (Except.error.injEq _ _).mp h.symm

theorem ensure_permission_if_error (c : Prop) [Decidable c] (caller : User)
    (rt : ResourceType) (rp : ResourcePermission) (e : Error)
    (h : (if c then ensure_permission caller rt rp else Except.ok ()) = Except.error e) :
    e = Error.Unauthorized rt rp := by
  split at h
  · exact ensure_permission_error caller rt rp e h
  · exact absurd h (by simp)

theorem manager_create_checks_error (caller : User) (id : String)
    (conf : SessionConfiguration) (e : Error)
    (h : manager_create_checks caller id conf = Except.error e) :
    ∃ rt rp, e = Error.Unauthorized rt rp := by
  unfold manager_create_checks at h
  cases h1 : ensure_permission caller ResourceType.Session ResourcePermission.Create with
  | error e1 =>
    rw [h1] at h
    exact ⟨_, _, by
      have := ensure_permission_error caller _ _ e1 h1
      simpa [← (Except.error.injEq _ _).mp h] using this⟩
  | ok u =>
    rw [h1] at h
    cases h2 : (if asciiLowercase caller.id ≠ id then
        ensure_permission caller ResourceType.Session
          (ResourcePermission.Custom "CustomizeSessionName")
      else Except.ok ()) with
    | error e2 =>
      rw [h2] at h
      exact ⟨_, _, by
        have := ensure_permission_if_error _ caller _ _ e2 h2
        simpa [← (Except.error.injEq _ _).mp h] using this⟩
    | ok u2 =>
      rw [h2] at h
      cases h3 : (if conf.duration.isSome then
          ensure_permission caller ResourceType.Session
            (ResourcePermission.Custom "CustomizeSessionDuration")
        else Except.ok ()) with
      | error e3 =>
        rw [h3] at h
        exact ⟨_, _, by
          have := ensure_permission_if_error _ caller _ _ e3 h3
          simpa [← (Except.error.injEq _ _).mp h] using this⟩
      | ok u3 =>
        rw [h3] at h
        exact ⟨_, _, ensure_permission_if_error _ caller _ _ e h⟩

theorem manager_get_session_from_error (user : User) (sessionId : String)
    (kubeRes : Except Error (Option Session)) (e : Error)
    (h : manager_get_session_from user sessionId kubeRes = Except.error e) :
    (∃ rt rp, e = Error.Unauthorized rt rp) ∨ (∃ cause, e = Error.Failure cause) := by
  unfold manager_get_session_from at h
  cases h1 : ensure_permission user ResourceType.Session ResourcePermission.Read with
  | error e1 =>
    rw [h1] at h
    exact Or.inl ⟨_, _, by
      have := ensure_permission_error user _ _ e1 h1
      simpa [← (Except.error.injEq _ _).mp h] using this⟩
  | ok u =>
    rw [h1] at h
    cases h2 : ensure_session_ownership user sessionId kubeRes with
    | ok s =>
      rw [h2] at h
      exact absurd h (by simp)
    | error e2 =>
      rw [h2] at h
      cases e2 <;> simp at h
      exact Or.inr ⟨_, h.symm⟩

theorem kube_create_session_no_dlb (host : String) (user : User) (sessionId : String)
    (configuration : Configuration) (conf : SessionConfiguration) (st : ClusterState)
    (m : Nat) :
    (kube_create_session host user sessionId configuration conf st).1
      ≠ Except.error (Error.DurationLimitBreached m) := by
  intro h
  simp only [kube_create_session] at h
  split at h
  · simp at h
  · split at h
    · simp at h
    · split at h
      · simp at h
      · split at h
        · simp at h
        · split at h
          · simp at h
          · simp at h

/-- C2 (amended): the create path never fails `DurationLimitBreached` — not
in the kubernetes `create_session` (whose only duration handling is
`config.duration ?? default_duration`, written to the pod annotation with no
comparison against `max_duration`) and not in the manager wrapper either; an
admitted create records exactly `config.duration ?? default_duration`,
uncapped (stated via the minute annotation, and via `max_duration` for
whole-minute durations, which all wire durations are). -/
theorem C2_create_duration_uncapped (host : String) (user : User) (sessionId : String)
    (configuration : Configuration) (conf : SessionConfiguration) (st : ClusterState) :
    (∀ m, (manager_create_session host user sessionId configuration conf st).1
        ≠ Except.error (Error.DurationLimitBreached m))
    ∧ (∀ st',
        (kube_create_session host user sessionId configuration conf st).1 = Except.ok st' →
        ∃ s, st'.sessions = st.sessions ++ [s]
          ∧ s.durationAnnotMinutes
              = workspace_duration_annot (conf.duration.getD configuration.workspace.duration)
          ∧ (60 ∣ conf.duration.getD configuration.workspace.duration →
              s.maxDuration = conf.duration.getD configuration.workspace.duration)) := by
  constructor
  · intro m h
    unfold manager_create_session at h
    cases h1 : manager_create_checks user sessionId conf with
    | error e1 =>
      rw [h1] at h
      have he : e1 = Error.DurationLimitBreached m := by simpa using h
      obtain ⟨rt, rp, hshape⟩ := manager_create_checks_error user sessionId conf e1 h1
      rw [he] at hshape
      cases hshape
    | ok u =>
      rw [h1] at h
      cases h2 : manager_get_session user sessionId st with
      | error e2 =>
        rw [h2] at h
        have he : e2 = Error.DurationLimitBreached m := by simpa using h
        rcases manager_get_session_from_error user sessionId _ e2 h2 with
          ⟨rt, rp, hshape⟩ | ⟨cause, hshape⟩ <;> rw [he] at hshape <;> cases hshape
      | ok o =>
        rw [h2] at h
        cases o with
        | some s => simp at h
        | none =>
          exact kube_create_session_no_dlb host user sessionId configuration conf st m h
  · intro st' h
    simp only [kube_create_session] at h
    split at h
    · simp at h
    · split at h
      · simp at h
      · split at h
        · simp at h
        · split at h
          · simp at h
          · split at h
            · simp at h
            · have h' := Except.ok.inj h
              refine ⟨{ id := sessionId, userId := sessionId
                        durationAnnotMinutes := workspace_duration_annot
                          (conf.duration.getD configuration.workspace.duration)
                        state := SessionState.Deploying, podUid := st.nextPodUid },
                ?_, rfl, ?_⟩
              · rw [← h']
              · intro hdvd
                simp only [Session.maxDuration, str_minutes_to_duration,
                  workspace_duration_annot]
                exact Nat.div_mul_cancel hdvd

/-- C2 witness: on an empty cluster, alice's create with an explicit duration
of 1441 minutes — one over the 1440-minute maximum, hence `≥ max` — does not
fail `DurationLimitBreached`: it succeeds, recording 1441 minutes uncapped. -/
theorem C2_witness :
    (∀ m, (manager_create_session "example.com" userAlice "alice" configurationStd
        confLongDuration stEmpty).1 ≠ Except.error (Error.DurationLimitBreached m))
    ∧ ∃ s, afterC2.sessions = stEmpty.sessions ++ [s]
        ∧ s.durationAnnotMinutes = workspace_duration_annot
            (confLongDuration.duration.getD configurationStd.workspace.duration)
        ∧ (60 ∣ confLongDuration.duration.getD configurationStd.workspace.duration →
            s.maxDuration = confLongDuration.duration.getD configurationStd.workspace.duration) :=
  ⟨(C2_create_duration_uncapped "example.com" userAlice "alice" configurationStd
      confLongDuration stEmpty).1,
   (C2_create_duration_uncapped "example.com" userAlice "alice" configurationStd
      confLongDuration stEmpty).2 afterC2 rfl⟩

/-- C2 counterexample: the same concrete call — explicit duration 1441 min
`≥ max = 1440` min — returns success (not `DurationLimitBreached(max)`), and
the session list after it records `max_duration` of 1441 minutes, not
`min(1441, 1440)` minutes. -/
theorem C2_counterexample :
    except_is_ok (kube_create_session "example.com" userAlice "alice" configurationStd
        confLongDuration stEmpty).1 = true
    ∧ created_max_durations (kube_create_session "example.com" userAlice "alice"
        configurationStd confLongDuration stEmpty).1 = [1441 * 60] := by
  constructor <;> rfl

/-! ## C4: delete order, and NotFound is returned, not swallowed -/

theorem any_filter_ne_eq_false (sessionId : String) (l : List Session) :
    (l.filter (fun s => s.id != sessionId)).any (fun s => s.id == sessionId) = false := by
  rw [List.any_eq_false]
  intro s hs
  have := (List.mem_filter.mp hs).2
  simp only [bne_iff_ne, ne_eq] at this
  simp [this]

/-- C4 (amended): for a materialized session, delete performs exactly, in
order: delete namespace `session-<id>` with grace period 0, delete the
control-namespace ExternalName service `service-<id>`, replace the Ingress
with the matching rule filtered out. It is NOT idempotent: every step maps a
kube NotFound into `Error::Failure` and returns it with `?`, so a second
delete of the same id fails with `Failure` instead of succeeding. -/
theorem C4_delete_order (host : String) (sessionId : String) (st : ClusterState)
    (hsess : st.sessions.any (fun s => s.id == sessionId) = true)
    (hsvc : st.controlServices.contains (local_service_name sessionId) = true) :
    ∃ st', kube_delete_session host sessionId st
        = (Except.ok st',
           [KubeOp.deleteNamespace (session_namespace sessionId) 0,
            KubeOp.deleteService "default" (local_service_name sessionId),
            KubeOp.replaceIngress
              (delete_ingress_rules (subdomain host sessionId) st.ingressRules)])
      ∧ st'.ingressRules = delete_ingress_rules (subdomain host sessionId) st.ingressRules
      ∧ st'.sessions.any (fun s => s.id == sessionId) = false
      ∧ (kube_delete_session host sessionId st').1
          = Except.error (Error.Failure "NotFound") := by
  refine ⟨{ st with
      sessions := st.sessions.filter (fun s => s.id != sessionId)
      controlServices := st.controlServices.filter
        (fun n => n != local_service_name sessionId)
      ingressRules := delete_ingress_rules (subdomain host sessionId) st.ingressRules },
    ?_, rfl, any_filter_ne_eq_false sessionId st.sessions, ?_⟩
  · have hsvc' : local_service_name sessionId ∈ st.controlServices := by
      simpa using hsvc
    simp [kube_delete_session, hsess, hsvc, hsvc']
  · simp [kube_delete_session, any_filter_ne_eq_false sessionId st.sessions]

/-- C4 witness: deleting alice's materialized session performs the three
steps in order and a re-delete fails. -/
theorem C4_witness :
    ∃ st', kube_delete_session "example.com" "alice" stWithAlice
        = (Except.ok st',
           [KubeOp.deleteNamespace (session_namespace "alice") 0,
            KubeOp.deleteService "default" (local_service_name "alice"),
            KubeOp.replaceIngress
              (delete_ingress_rules (subdomain "example.com" "alice")
                stWithAlice.ingressRules)])
      ∧ st'.ingressRules
          = delete_ingress_rules (subdomain "example.com" "alice") stWithAlice.ingressRules
      ∧ st'.sessions.any (fun s => s.id == "alice") = false
      ∧ (kube_delete_session "example.com" "alice" st').1
          = Except.error (Error.Failure "NotFound") :=
  C4_delete_order "example.com" "alice" stWithAlice rfl rfl

/-- C4 counterexample: concretely, the first delete of alice's session
succeeds but repeating it on the resulting cluster returns
`Failure("NotFound")` — the claimed idempotence (NotFound swallowed) does
not hold. -/
theorem C4_counterexample :
    except_is_ok (kube_delete_session "example.com" "alice" stWithAlice).1 = true
    ∧ (kube_delete_session "example.com" "alice" stAfterDelete).1
        = Except.error (Error.Failure "NotFound") := by
  constructor <;> rfl

/-! ## C8: duration update -/

theorem find?_map_pred_preserved {α : Type} (p : α → Bool) (f : α → α)
    (hpf : ∀ x, p (f x) = p x) :
    ∀ l : List α, (l.map f).find? p = (l.find? p).map f
  | [] => rfl
  | x :: xs => by
    cases hx : p x with
    | false =>
      have hfx : p (f x) = false := (hpf x).trans hx
      simp [List.find?_cons, hx, hfx, find?_map_pred_preserved p f hpf xs]
    | true =>
      have hfx : p (f x) = true := (hpf x).trans hx
      simp [List.find?_cons, hx, hfx]

/-- C8: updating a session's duration to `m` minutes fails
`DurationLimitBreached(max_duration in ms)` with no Kubernetes call when
`m minutes ≥ max_duration`; otherwise it succeeds, a subsequent lookup
reports `max_duration = m` minutes, the pod is not recreated (same uid) and
no field other than the duration annotation changes — the trace is empty or
a single JSON-patch of the `session_duration` annotation to `m`. -/
theorem C8_update_duration (sessionId : String) (configuration : Configuration)
    (m : Nat) (st : ClusterState) (session : Session)
    (hfind : st.sessions.find? (fun s => s.id == sessionId) = some session) :
    (configuration.workspace.maxDuration ≤ m * 60 →
      kube_update_session sessionId configuration ⟨some (m * 60)⟩ st
        = (Except.error
            (Error.DurationLimitBreached (configuration.workspace.maxDuration * 1000)), []))
    ∧ (m * 60 < configuration.workspace.maxDuration →
      ∃ st', (kube_update_session sessionId configuration ⟨some (m * 60)⟩ st).1
          = Except.ok st'
        ∧ (st'.sessions.find? (fun s => s.id == sessionId)).map Session.maxDuration
            = some (m * 60)
        ∧ (st'.sessions.find? (fun s => s.id == sessionId)).map Session.podUid
            = some session.podUid
        ∧ (st'.sessions.find? (fun s => s.id == sessionId)).map Session.userId
            = some session.userId
        ∧ (st'.sessions.find? (fun s => s.id == sessionId)).map Session.state
            = some session.state
        ∧ (∀ s ∈ st.sessions, s.id ≠ sessionId → s ∈ st'.sessions)
        ∧ ((kube_update_session sessionId configuration ⟨some (m * 60)⟩ st).2 = []
            ∨ (kube_update_session sessionId configuration ⟨some (m * 60)⟩ st).2
                = [KubeOp.patchPodDurationAnnot (session_namespace sessionId)
                    "session" m])) := by
  have hid := List.find?_some hfind
  have hid' : session.id = sessionId := by simpa using hid
  have hm60 : m * 60 / 60 = m := by omega
  constructor
  · intro hge
    simp [kube_update_session, hfind, hge]
  · intro hlt
    have hnge : ¬ configuration.workspace.maxDuration ≤ m * 60 := Nat.not_le_of_lt hlt
    by_cases hchg : (m * 60 != str_minutes_to_duration session.durationAnnotMinutes) = true
    · have hmap := find?_map_pred_preserved (fun s => s.id == sessionId)
        (fun s => if s.id == sessionId then
          { s with durationAnnotMinutes := workspace_duration_annot (m * 60) }
        else s)
        (by intro x; by_cases hx : (x.id == sessionId) = true <;> simp [hx])
        st.sessions
      refine ⟨{ st with sessions := st.sessions.map (fun s =>
          if s.id == sessionId then
            { s with durationAnnotMinutes := workspace_duration_annot (m * 60) }
          else s) }, ?_, ?_, ?_, ?_, ?_, ?_, ?_⟩
      · simp [kube_update_session, hfind, hnge, hchg]
      · simp only [hmap, hfind, Option.map_map]
        simp [hid', Session.maxDuration, str_minutes_to_duration,
          workspace_duration_annot, hm60]
      · simp only [hmap, hfind, Option.map_map]
        simp [hid']
      · simp only [hmap, hfind, Option.map_map]
        simp [hid']
      · simp only [hmap, hfind, Option.map_map]
        simp [hid']
      · intro s hs hne
        refine List.mem_map.mpr ⟨s, hs, ?_⟩
        simp [hne]
      · right
        simp [kube_update_session, hfind, hnge, hchg, workspace_duration_annot, hm60]
    · have heq : m * 60 = str_minutes_to_duration session.durationAnnotMinutes := by
        simpa using hchg
      refine ⟨st, ?_, ?_, ?_, ?_, ?_, ?_, ?_⟩
      · simp [kube_update_session, hfind, hnge, hchg]
      · rw [hfind]
        have hmd : session.maxDuration = m * 60 := heq.symm
        simp [hmd]
      · simp [hfind]
      · simp [hfind]
      · simp [hfind]
      · intro s hs _
        exact hs
      · left
        simp [kube_update_session, hfind, hnge, hchg]

/-- C8 witness: on alice's concrete session (annotation 45 min, max 1440
min): updating to 60 min succeeds, a lookup then reports 60 min and the pod
uid is unchanged; updating to 1440 min (`= max`) fails
`DurationLimitBreached(86400000)` with no Kubernetes call. -/
theorem C8_witness :
    (∃ st', (kube_update_session "alice" configurationStd ⟨some (60 * 60)⟩ stWithAlice).1
        = Except.ok st'
      ∧ (st'.sessions.find? (fun s => s.id == "alice")).map Session.maxDuration
          = some (60 * 60)
      ∧ (st'.sessions.find? (fun s => s.id == "alice")).map Session.podUid
          = some sessionAliceRunning.podUid
      ∧ (st'.sessions.find? (fun s => s.id == "alice")).map Session.userId
          = some sessionAliceRunning.userId
      ∧ (st'.sessions.find? (fun s => s.id == "alice")).map Session.state
          = some sessionAliceRunning.state
      ∧ (∀ s ∈ stWithAlice.sessions, s.id ≠ "alice" → s ∈ st'.sessions)
      ∧ ((kube_update_session "alice" configurationStd ⟨some (60 * 60)⟩ stWithAlice).2 = []
          ∨ (kube_update_session "alice" configurationStd ⟨some (60 * 60)⟩ stWithAlice).2
              = [KubeOp.patchPodDurationAnnot (session_namespace "alice") "session" 60]))
    ∧ kube_update_session "alice" configurationStd ⟨some (1440 * 60)⟩ stWithAlice
        = (Except.error (Error.DurationLimitBreached
            (configurationStd.workspace.maxDuration * 1000)), []) :=
  ⟨(C8_update_duration "alice" configurationStd 60 stWithAlice sessionAliceRunning rfl).2
      (by decide),
   (C8_update_duration "alice" configurationStd 1440 stWithAlice sessionAliceRunning rfl).1
      (by decide)⟩

end Playground
